import Mathlib

/-!
Verification of the error-handling model of the go-error-handling repository.

The repository is a catalogue of Go error-handling idioms: a `DatabaseError`
struct with structured metadata and an `Unwrap` method (package `database`),
five sentinel errors created with `errors.New` (package `utils`), a
`ValidationError` struct (package `custom`), user-level operations
(`ValidateUser`, `FindUserByEmail`, `QueryUsers` in package `user`) and a
three-level wrapping chain (`ProcessUserData` in package `wrapping`).

Go error values are shallowly embedded as the inductive type `GoErr`.
Each `errors.New` call site is given a numeric allocation id: Go compares
sentinel errors by pointer identity, and distinct ids model distinct
allocations, so two independently constructed errors with the same text are
different values.  The nullable `Err` field of `DatabaseError` is embedded
by splitting the constructor into a nil-cause and a with-cause form; the
smart constructor `GoErr.databaseError` takes the field as an `Option`,
mirroring the Go struct literal.
-/

/-- A UTC wall-clock instant, the part of Go's `time.Time` that the
repository renders.  The tests construct times with `time.Date(..., time.UTC)`;
rendering follows `time.RFC3339`, which prints a trailing `Z` for UTC. -/
structure GoTime where
  year : Nat
  month : Nat
  day : Nat
  hour : Nat
  minute : Nat
  second : Nat
deriving DecidableEq

/-- Two-digit zero padding, as produced by the `01`/`02`/`15`/`04`/`05`
components of Go's reference layout. -/
def pad2 (n : Nat) : String :=
  if n < 10 then "0" ++ toString n else toString n

/-- Four-digit zero padding for the year component (`2006`). -/
def pad4 (n : Nat) : String :=
  if n < 10 then "000" ++ toString n
  else if n < 100 then "00" ++ toString n
  else if n < 1000 then "0" ++ toString n
  else toString n

/-- Go's `t.Format(time.RFC3339)` for a UTC instant:
`2006-01-02T15:04:05Z`. -/
def formatRFC3339 (t : GoTime) : String :=
  pad4 t.year ++ "-" ++ pad2 t.month ++ "-" ++ pad2 t.day ++ "T" ++
    pad2 t.hour ++ ":" ++ pad2 t.minute ++ ":" ++ pad2 t.second ++ "Z"

/-- The dynamic values stored in the `interface\x7b\x7d`-typed `Value` field of
`custom.ValidationError`.  The repository stores ints and strings there. -/
inductive GoValue where
  | intV (n : Int)
  | strV (s : String)
  | nilV
deriving DecidableEq

/-- Go's `%v` formatting of a `GoValue`. -/
def GoValue.format : GoValue → String
  | .intV n => toString n
  | .strV s => s
  | .nilV => "<nil>"

/-- The Go error values built by this repository.

* `errorsNew id text` — an `errors.New(text)` value; `id` models the
  allocation identity of the call site (Go compares these by pointer).
* `errorf ctx cause` — `fmt.Errorf(fmt ++ ": %w", ..., cause)`; `ctx` is the
  formatted text in front of the wrapped error, so the rendered message is
  `ctx ++ cause.Error()`.
* `databaseErrorNil` / `databaseErrorWith` — a `database.DatabaseError`
  struct whose `Err` field is nil, respectively non-nil.
* `validationError` — a `custom.ValidationError` struct. -/
inductive GoErr where
  | errorsNew (id : Nat) (text : String)
  | errorf (ctx : String) (cause : GoErr)
  | databaseErrorNil (Operation Table Query : String) (Timestamp : GoTime) (Retryable : Bool)
  | databaseErrorWith (Operation Table Query : String) (cause : GoErr) (Timestamp : GoTime) (Retryable : Bool)
  | validationError (Field Message : String) (Code : Int) (Value : GoValue)
deriving DecidableEq

/-- The `database.DatabaseError` struct literal, with its nullable `Err`
field taken as an `Option`. -/
def GoErr.databaseError (op tbl q : String) (err : Option GoErr) (ts : GoTime)
    (r : Bool) : GoErr :=
  match err with
  | none => .databaseErrorNil op tbl q ts r
  | some c => .databaseErrorWith op tbl q c ts r

/-- The Sprintf format of `DatabaseError.Error`:
`"database error [%s on %s]: %v (retryable: %v, timestamp: %s)"` applied to
`Operation`, `Table`, the rendered `Err`, `Retryable` and the RFC3339
timestamp.  The `Query` field does not appear in the format string. -/
def renderDB (op tbl causeText : String) (r : Bool) (ts : GoTime) : String :=
  "database error [" ++ op ++ " on " ++ tbl ++ "]: " ++ causeText ++
    " (retryable: " ++ (if r then "true" else "false") ++
    ", timestamp: " ++ formatRFC3339 ts ++ ")"

/-- The dynamic `Error()` method of each error value.

* `errors.New` values render their text.
* `fmt.Errorf` values render the context followed by the cause
  (`%w` substitutes the cause's `Error()`).
* `DatabaseError.Error` is the Sprintf above; Go's `%v` of a nil error
  prints `<nil>`.
* `ValidationError.Error` is
  `"Validation error on field \x27%s\x27: %s (code: %d, value: %v)"`. -/
def GoErr.Error : GoErr → String
  | .errorsNew _ text => text
  | .errorf ctx cause => ctx ++ cause.Error
  | .databaseErrorNil op tbl _ ts r => renderDB op tbl "<nil>" r ts
  | .databaseErrorWith op tbl _ c ts r => renderDB op tbl c.Error r ts
  | .validationError f m c v =>
      "Validation error on field \x27" ++ f ++ "\x27: " ++ m ++
        " (code: " ++ toString c ++ ", value: " ++ v.format ++ ")"

/-- Go's `%v` of a nullable error: the `Error()` text, or `<nil>`. -/
def errTextOfOpt : Option GoErr → String
  | some c => c.Error
  | none => "<nil>"

/-- Whether the dynamic type of the value implements the
`interface \x7b Unwrap() error \x7d` capability: `fmt.Errorf`-with-`%w`
values and `*DatabaseError` do, `errors.New` values and `*ValidationError`
do not. -/
def hasUnwrapMethod : GoErr → Bool
  | .errorf _ _ => true
  | .databaseErrorNil _ _ _ _ _ => true
  | .databaseErrorWith _ _ _ _ _ _ => true
  | _ => false

/-- The result of calling the dynamic `Unwrap()` method.
`fmt.Errorf`-with-`%w` values return the wrapped error;
`DatabaseError.Unwrap` returns the `Err` field, which is nil for the
nil-cause form.  The remaining cases have no `Unwrap` method and are never
dispatched to; they are mapped to `none`. -/
def GoErr.Unwrap : GoErr → Option GoErr
  | .errorf _ cause => some cause
  | .databaseErrorNil _ _ _ _ _ => none
  | .databaseErrorWith _ _ _ c _ _ => some c
  | _ => none

/-- `database.Unwramp`: if the error implements the unwrapper interface,
call its `Unwrap()`; otherwise return nil. -/
def Unwramp (err : GoErr) : Option GoErr :=
  if hasUnwrapMethod err then err.Unwrap else none

/-- `errors.Is(err, target)`: at each level compare by interface identity
(structural equality of the embedding, with allocation ids separating
distinct `errors.New` values), then follow `Unwrap` while it yields a
non-nil cause.  None of the repository's types implement an `Is` method. -/
def errorsIs (err target : GoErr) : Bool :=
  (err == target) ||
  match err with
  | .errorf _ c => errorsIs c target
  | .databaseErrorWith _ _ _ c _ _ => errorsIs c target
  | _ => false

/-- Whether the dynamic type is `*database.DatabaseError`. -/
def isDatabaseError : GoErr → Bool
  | .databaseErrorNil _ _ _ _ _ => true
  | .databaseErrorWith _ _ _ _ _ _ => true
  | _ => false

/-- `errors.As(err, &dbErr)` with target type `*database.DatabaseError`:
return the first element of the unwrap chain whose dynamic type matches,
or none when the chain is exhausted. -/
def errorsAsDatabaseError : GoErr → Option GoErr
  | .databaseErrorNil op tbl q ts r => some (.databaseErrorNil op tbl q ts r)
  | .databaseErrorWith op tbl q c ts r => some (.databaseErrorWith op tbl q c ts r)
  | .errorf _ c => errorsAsDatabaseError c
  | _ => none

/-- The unwrap chain of an error: the error itself, then the chain of its
cause while `Unwrap` yields a non-nil cause (outermost first, root last). -/
def chainList : GoErr → List GoErr
  | .errorf ctx c => .errorf ctx c :: chainList c
  | .databaseErrorWith op tbl q c ts r => .databaseErrorWith op tbl q c ts r :: chainList c
  | e => [e]

/-- The chain-walking loop of the wrapping tests: collect the `Error()`
text of every element of the unwrap chain, outermost first. -/
def WalkChain (e : GoErr) : List String :=
  (chainList e).map GoErr.Error

/-- Wrapping with `fmt.Errorf(... ++ ": %w", ..., e)` once per context in
the list, outermost context first. -/
def wrapMany : List String → GoErr → GoErr
  | [], e => e
  | ctx :: ctxs, e => .errorf ctx (wrapMany ctxs e)

/-- Substring containment of Go's `strings.Contains`, on the underlying
character lists. -/
def containsSubstr (s sub : String) : Prop :=
  sub.data <:+: s.data

instance (s sub : String) : Decidable (containsSubstr s sub) :=
  List.decidableInfix sub.data s.data

/-- Sentinel `utils.ErrUserNotFound = errors.New("user not found")`.
The allocation ids 0 to 4 model the five distinct package-level
allocations. -/
def ErrUserNotFound : GoErr := .errorsNew 0 "user not found"

/-- Sentinel `utils.ErrDuplicateEmail`. -/
def ErrDuplicateEmail : GoErr := .errorsNew 1 "email already exists"

/-- Sentinel `utils.ErrInvalidPassword`. -/
def ErrInvalidPassword : GoErr := .errorsNew 2 "invalid password"

/-- Sentinel `utils.ErrUnauthorized`. -/
def ErrUnauthorized : GoErr := .errorsNew 3 "unauthorized access"

/-- Sentinel `utils.ErrDatabaseTimeout`. -/
def ErrDatabaseTimeout : GoErr := .errorsNew 4 "database operation timed out"

/-- The five package-level sentinels of package `utils`. -/
def utilsSentinels : List GoErr :=
  [ErrUserNotFound, ErrDuplicateEmail, ErrInvalidPassword,
   ErrUnauthorized, ErrDatabaseTimeout]

/-- The `user.User` struct. -/
structure User where
  ID : Int
  Email : String
  Age : Int
deriving DecidableEq

/-- `user.ValidateUser`: negative age, then age above 130, then empty
email, in that order; nil on success. -/
def ValidateUser (user : User) : Option GoErr :=
  if user.Age < 0 then
    some (.validationError "Age" "Age cannot be negative" 2001 (.intV user.Age))
  else if user.Age > 130 then
    some (.validationError "Age" "Age cannot be greater than 130" 2002 (.intV user.Age))
  else if user.Email = "" then
    some (.validationError "Email" "Email cannot be empty" 2003 (.strV user.Email))
  else
    none

/-- `user.FindUserByEmail`: always fails; an empty email wraps the sentinel
with context, any other email returns the sentinel itself. -/
def FindUserByEmail (email : String) : Option User × Option GoErr :=
  if email = "" then
    (none, some (.errorf "email cannot be empty: " ErrUserNotFound))
  else
    (none, some ErrUserNotFound)

/-- The `errors.New("connection timeout")` allocation inside
`user.QueryUsers`; id 20 models that call site. -/
def connectionTimeout : GoErr := .errorsNew 20 "connection timeout"

/-- `user.QueryUsers`: always returns a fresh `DatabaseError`.  The
`time.Now()` read is passed in as `now`. -/
def QueryUsers (limit : Int) (now : GoTime) : GoErr :=
  .databaseError "SELECT" "users"
    ("SELECT * FROM users LIMIT " ++ toString limit)
    (some connectionTimeout) now true

/-- The error of `os.ReadFile` on an absent file: a `*fs.PathError` with
operation `open`, rendering `"open <name>: <errno text>"` and unwrapping to
the ENOENT errno value (text `"no such file or directory"` on Unix), which
itself has no `Unwrap` method.  Id 30 models the errno value. -/
def pathErrorNotExist (filename : String) : GoErr :=
  .errorf ("open " ++ filename ++ ": ") (.errorsNew 30 "no such file or directory")

/-- `wrapping.readConfigFile`: nil when the file exists, otherwise the
`os.ReadFile` error wrapped with context.  Whether the file exists is
passed in as `fileExists`. -/
def readConfigFile (fileExists : Bool) (filename : String) : Option GoErr :=
  if fileExists then none
  else some (.errorf ("failed to read config file " ++ filename ++ ": ")
    (pathErrorNotExist filename))

/-- `wrapping.loadUserConfig`: reads `user_<id>.json`, wrapping any error
with context. -/
def loadUserConfig (fileExists : Bool) (userID : Int) : Option GoErr :=
  match readConfigFile fileExists ("user_" ++ toString userID ++ ".json") with
  | some e => some (.errorf ("failed to load config for user " ++ toString userID ++ ": ") e)
  | none => none

/-- `wrapping.ProcessUserData`: wraps any `loadUserConfig` error with
context. -/
def ProcessUserData (fileExists : Bool) (userID : Int) : Option GoErr :=
  match loadUserConfig fileExists userID with
  | some e => some (.errorf ("failed to process user " ++ toString userID ++ ": ") e)
  | none => none

/-- The `database.DatabaseError` struct as a record, for reasoning about
the receiver of the `Error()` method. -/
structure DatabaseError where
  Operation : String
  Table : String
  Query : String
  Err : Option GoErr
  Timestamp : GoTime
  Retryable : Bool
deriving DecidableEq

/-- The error value a `DatabaseError` receiver denotes. -/
def DatabaseError.toGoErr (e : DatabaseError) : GoErr :=
  .databaseError e.Operation e.Table e.Query e.Err e.Timestamp e.Retryable

/-- A call of the `Error()` method on a receiver: the returned string
together with the receiver state after the call.  The Go method body is a
single `fmt.Sprintf` over the fields and contains no assignment. -/
def DatabaseError.ErrorCall (e : DatabaseError) : String × DatabaseError :=
  (e.toGoErr.Error, e)

/-! ### Helper lemmas -/

/-- Anything whose chain ends at an `errors.New` leaf matches a leaf target
exactly when the underlying comparison does: wrapping with `fmt.Errorf`
contexts never affects matching against an `errors.New` target, because a
wrap node is never identical to a leaf. -/
theorem errorsIs_wrapMany_errorsNew (ctxs : List String) (s : GoErr) (i : Nat) (m : String) :
    errorsIs (wrapMany ctxs s) (.errorsNew i m) = errorsIs s (.errorsNew i m) := by
  induction ctxs with
  | nil => rfl
  | cons c cs ih => simp [wrapMany, errorsIs, ih]

/-- Matching starting at an `errors.New` leaf is exactly the identity
comparison: a leaf has no `Unwrap` method. -/
theorem errorsIs_errorsNew (i : Nat) (s : String) (t : GoErr) :
    errorsIs (.errorsNew i s) t = ((GoErr.errorsNew i s : GoErr) == t) := by
  simp [errorsIs]

/-- Every value matches itself. -/
theorem errorsIs_self (e : GoErr) : errorsIs e e = true := by
  cases e <;> simp [errorsIs]

/-- Walking a chain wrapped `n` times yields `n` more elements than the
base chain: traversal is never cut short. -/
theorem walkChain_wrapMany_length (ctxs : List String) (s : GoErr) :
    (WalkChain (wrapMany ctxs s)).length = ctxs.length + (WalkChain s).length := by
  induction ctxs with
  | nil => simp [wrapMany]
  | cons c cs ih => simp [wrapMany, WalkChain, chainList] at *; omega

/-- A string equal to a concatenation contains the middle part. -/
theorem containsSubstr_of_eq_append (s pre mid post : String)
    (h : s = pre ++ mid ++ post) : containsSubstr s mid := by
  subst h
  exact ⟨pre.data, post.data, by simp [String.data_append]⟩

/-! ### Claim theorems -/

/-- C3: ExtractTyped (errors.As with target *DatabaseError) returns the
first chain element that is a DatabaseError, or absent if none is; on the
error of QueryUsers it succeeds and yields the instance with Operation
SELECT, Table users, Retryable true and the original Query and cause. -/
theorem extractTyped_first_structured :
    (∀ e : GoErr, errorsAsDatabaseError e = (chainList e).find? isDatabaseError)
    ∧ (∀ (limit : Int) (now : GoTime),
        errorsAsDatabaseError (QueryUsers limit now) =
          some (GoErr.databaseError "SELECT" "users"
            ("SELECT * FROM users LIMIT " ++ toString limit)
            (some connectionTimeout) now true)) := by
  constructor
  · intro e
    induction e with
    | errorsNew i s => simp [errorsAsDatabaseError, chainList, List.find?, isDatabaseError]
    | errorf ctx c ih => simp [errorsAsDatabaseError, chainList, List.find?, isDatabaseError, ih]
    | databaseErrorNil o t q ts r =>
        simp [errorsAsDatabaseError, chainList, List.find?, isDatabaseError]
    | databaseErrorWith o t q c ts r ih =>
        simp [errorsAsDatabaseError, chainList, List.find?, isDatabaseError]
    | validationError f m c v =>
        simp [errorsAsDatabaseError, chainList, List.find?, isDatabaseError]
  · intro limit now
    rfl

/-- C4: Unwramp is a single-step cause accessor: it returns nil for values
without an Unwrap method, the wrapped cause for fmt.Errorf values, and for
any DatabaseError exactly the Err field it was constructed with (nil when
that field is nil). -/
theorem unwramp_single_step :
    (∀ e : GoErr, hasUnwrapMethod e = false → Unwramp e = none)
    ∧ (∀ (ctx : String) (c : GoErr), Unwramp (.errorf ctx c) = some c)
    ∧ (∀ (op tbl q : String) (err : Option GoErr) (ts : GoTime) (r : Bool),
        Unwramp (GoErr.databaseError op tbl q err ts r) = err) := by
  refine ⟨?_, ?_, ?_⟩
  · intro e h
    simp [Unwramp, h]
  · intro ctx c
    rfl
  · intro op tbl q err ts r
    cases err <;> rfl

/-- C4 witness: concrete instances of the three parts. -/
theorem unwramp_single_step_witness :
    Unwramp ErrUserNotFound = none
    ∧ Unwramp (.errorf "operation failed: " ErrUserNotFound) = some ErrUserNotFound
    ∧ Unwramp (GoErr.databaseError "SELECT" "users" "q" none ⟨2023, 10, 5, 10, 30, 0⟩ true) = none :=
  ⟨unwramp_single_step.1 ErrUserNotFound rfl,
   unwramp_single_step.2.1 "operation failed: " ErrUserNotFound,
   unwramp_single_step.2.2 "SELECT" "users" "q" none ⟨2023, 10, 5, 10, 30, 0⟩ true⟩

/-- C7: ValidateUser returns a ValidationError carrying the offending
field, message, code and value: code 2001 on field Age exactly when the
age is negative, code 2002 on Age exactly when it exceeds 130, code 2003
on Email exactly when the age is in range and the email empty, and nil
exactly when the age is in range and the email non-empty. -/
theorem validateUser_cases (u : User) :
    (ValidateUser u =
        some (.validationError "Age" "Age cannot be negative" 2001 (.intV u.Age))
      ↔ u.Age < 0)
    ∧ (ValidateUser u =
        some (.validationError "Age" "Age cannot be greater than 130" 2002 (.intV u.Age))
      ↔ 130 < u.Age)
    ∧ (ValidateUser u =
        some (.validationError "Email" "Email cannot be empty" 2003 (.strV u.Email))
      ↔ (0 ≤ u.Age ∧ u.Age ≤ 130 ∧ u.Email = ""))
    ∧ (ValidateUser u = none ↔ (0 ≤ u.Age ∧ u.Age ≤ 130 ∧ u.Email ≠ "")) := by
  unfold ValidateUser
  split_ifs with h1 h2 h3 <;>
    refine ⟨?_, ?_, ?_, ?_⟩ <;>
    constructor <;>
    intro h <;>
    simp_all <;>
    omega

/-- C9: a call of the Error method is pure and mutates nothing: it returns
the Sprintf of the Operation, Table, rendered Err, Retryable and Timestamp
fields, and the receiver after the call is exactly the receiver before,
so all six fields (Query included) and in particular the timestamp are
unchanged. -/
theorem errorCall_pure_frame (e : DatabaseError) :
    DatabaseError.ErrorCall e =
      (renderDB e.Operation e.Table (errTextOfOpt e.Err) e.Retryable e.Timestamp, e) := by
  cases e with
  | mk op tbl q err ts r => cases err <;> rfl

/-- C10: FindUserByEmail never succeeds: for every email it returns a nil
user and a non-nil error matching ErrUserNotFound; the empty email wraps
the sentinel with context, any other email returns the sentinel itself. -/
theorem findUserByEmail_never_succeeds (email : String) :
    (FindUserByEmail email).1 = none
    ∧ (FindUserByEmail email).2 =
        some (if email = "" then GoErr.errorf "email cannot be empty: " ErrUserNotFound
              else ErrUserNotFound)
    ∧ (FindUserByEmail email).2.map (fun e => errorsIs e ErrUserNotFound) = some true := by
  by_cases h : email = "" <;>
    refine ⟨?_, ?_, ?_⟩ <;>
    simp [FindUserByEmail, h] <;>
    decide

/-- C1: DatabaseError renders to exactly the specified format, and the
QueryUsers error therefore renders with the fixed SELECT-on-users
connection-timeout beginning for every limit, the RFC3339 timestamp
closing the message. -/
theorem databaseError_render_format :
    (∀ (op tbl q : String) (err : Option GoErr) (ts : GoTime) (r : Bool),
      (GoErr.databaseError op tbl q err ts r).Error =
        "database error [" ++ op ++ " on " ++ tbl ++ "]: " ++ errTextOfOpt err ++
          " (retryable: " ++ (if r then "true" else "false") ++
          ", timestamp: " ++ formatRFC3339 ts ++ ")")
    ∧ (∀ (limit : Int) (now : GoTime), ∃ rest,
        (QueryUsers limit now).Error =
          "database error [SELECT on users]: connection timeout (retryable: true, timestamp: "
            ++ rest) := by
  constructor
  · intro op tbl q err ts r
    cases err <;> rfl
  · intro limit now
    refine ⟨formatRFC3339 now ++ ")", ?_⟩
    show renderDB "SELECT" "users" "connection timeout" true now = _
    unfold renderDB
    rw [String.append_assoc]
    rfl

/-- C5 counterexample: the chain of ProcessUserData is not 3 elements
long; the three repository-level wraps sit on top of the OS path error
and its errno cause, so WalkChain yields 5 texts. -/
theorem processUserData_chain_not_three :
    (ProcessUserData false 999).map (fun e => (WalkChain e).length) ≠ some 3 := by
  decide

/-- C5 amended: for every user id, ProcessUserData (with the config file
absent, the situation all chain tests exercise) returns the 3-level wrap
over the OS path error; WalkChain yields exactly 5 texts in outer-to-leaf
order and the last text is the leaf fault text. -/
theorem processUserData_chain_five (uid : Int) :
    ProcessUserData false uid =
      some (.errorf ("failed to process user " ++ toString uid ++ ": ")
        (.errorf ("failed to load config for user " ++ toString uid ++ ": ")
          (.errorf ("failed to read config file " ++ ("user_" ++ toString uid ++ ".json") ++ ": ")
            (.errorf ("open " ++ ("user_" ++ toString uid ++ ".json") ++ ": ")
              (.errorsNew 30 "no such file or directory")))))
    ∧ (ProcessUserData false uid).map (fun e => (WalkChain e).length) = some 5
    ∧ (ProcessUserData false uid).map (fun e => (WalkChain e).getLast?) =
        some (some "no such file or directory") := by
  refine ⟨rfl, rfl, rfl⟩

/-- C6 counterexample: a chain 70 wraps deep is traversed in full — 71
elements come back and no chain-integrity fault interrupts the walk, so
no defensive bound of 32 to 64 hops exists in the code. -/
theorem walkChain_no_depth_cap_at_70 :
    (WalkChain (wrapMany (List.replicate 70 "wrap: ") (.errorsNew 0 "x"))).length = 71 := by
  rw [walkChain_wrapMany_length]
  rfl

/-- C6 amended: chain traversal terminates on every representable
(acyclic) chain but is unguarded: a chain wrapped n times is always fully
traversed, yielding n plus the base chain's elements, and no depth bound
treats deep chains as a chain-integrity fault.  Cyclic chains are not
representable in this embedding; the code likewise has no guard for them. -/
theorem walkChain_full_traversal (ctxs : List String) (s : GoErr) :
    (WalkChain (wrapMany ctxs s)).length = ctxs.length + (WalkChain s).length :=
  walkChain_wrapMany_length ctxs s

/-- Merging the rendered true flag with the following fixed Sprintf part. -/
theorem mergeRetryableTrue (R : String) :
    (" (retryable: true" ++ (", timestamp: " ++ R) : String) =
      " (retryable: true, timestamp: " ++ R := by
  rw [← String.append_assoc]
  rfl

/-- Merging the rendered false flag with the following fixed Sprintf part. -/
theorem mergeRetryableFalse (R : String) :
    (" (retryable: false" ++ (", timestamp: " ++ R) : String) =
      " (retryable: false, timestamp: " ++ R := by
  rw [← String.append_assoc]
  rfl

/-- The rendered DatabaseError splits around the flag text matching the
retry field. -/
theorem renderDB_split (op tbl cText : String) (r : Bool) (ts : GoTime) :
    renderDB op tbl cText r ts =
      ("database error [" ++ op ++ " on " ++ tbl ++ "]: " ++ cText ++ " (") ++
        (if r then "retryable: true" else "retryable: false") ++
        (", timestamp: " ++ formatRFC3339 ts ++ ")") := by
  cases r <;> unfold renderDB <;>
    simp [String.append_assoc, mergeRetryableTrue, mergeRetryableFalse]

/-- Every rendered DatabaseError contains the flag text matching its
retry field. -/
theorem containsSubstr_renderDB (op tbl cText : String) (r : Bool) (ts : GoTime) :
    containsSubstr (renderDB op tbl cText r ts)
      (if r then "retryable: true" else "retryable: false") :=
  containsSubstr_of_eq_append _ _ _ _ (renderDB_split op tbl cText r ts)

/-- C2: sentinel matching is by identity, not text: every utils sentinel,
wrapped under arbitrarily many fmt.Errorf contexts, matches itself and no
distinct sentinel; the error of FindUserByEmail on the empty email is the
wrapped sentinel and matches it; and an independently constructed error
with the identical text is a different value and does not match. -/
theorem sentinel_identity_matching (ctxs : List String) (S T : GoErr)
    (hS : S ∈ utilsSentinels) (hT : T ∈ utilsSentinels) :
    errorsIs (wrapMany ctxs S) S = true
    ∧ (S ≠ T → errorsIs (wrapMany ctxs S) T = false)
    ∧ ((FindUserByEmail "").2 = some (.errorf "email cannot be empty: " ErrUserNotFound)
        ∧ errorsIs (.errorf "email cannot be empty: " ErrUserNotFound) ErrUserNotFound = true)
    ∧ (GoErr.errorsNew 100 "user not found" ≠ ErrUserNotFound
        ∧ errorsIs (.errorsNew 100 "user not found") ErrUserNotFound = false) := by
  have hS' : ∃ i m, S = GoErr.errorsNew i m := by
    fin_cases hS <;> exact ⟨_, _, rfl⟩
  have hT' : ∃ j n, T = GoErr.errorsNew j n := by
    fin_cases hT <;> exact ⟨_, _, rfl⟩
  obtain ⟨i, m, rfl⟩ := hS'
  obtain ⟨j, n, rfl⟩ := hT'
  refine ⟨?_, ?_, ⟨rfl, by decide⟩, ⟨by decide, by decide⟩⟩
  · rw [errorsIs_wrapMany_errorsNew]
    exact errorsIs_self _
  · intro hne
    rw [errorsIs_wrapMany_errorsNew, errorsIs_errorsNew]
    simpa using hne

/-- C2 witness: ErrUserNotFound wrapped once matches itself and not
ErrDuplicateEmail. -/
theorem sentinel_identity_matching_witness :
    errorsIs (wrapMany ["operation failed: "] ErrUserNotFound) ErrUserNotFound = true
    ∧ errorsIs (wrapMany ["operation failed: "] ErrUserNotFound) ErrDuplicateEmail = false := by
  have h := sentinel_identity_matching ["operation failed: "] ErrUserNotFound ErrDuplicateEmail
    (by decide) (by decide)
  exact ⟨h.1, h.2.1 (by decide)⟩

/-- C8 counterexample: a DatabaseError constructed with Retryable true
whose cause text is the string "retryable: false" renders with the
opposite-flag substring, so the substring for the opposite flag can
appear. -/
theorem render_opposite_flag_possible :
    containsSubstr
      (GoErr.databaseError "SELECT" "users" "q"
        (some (.errorsNew 51 "retryable: false")) ⟨2023, 10, 5, 10, 30, 0⟩ true).Error
      "retryable: false" := by
  decide

/-- C8 amended: for every constructed DatabaseError the render contains
the flag substring matching the Retryable field; and for constructions
whose other rendered parts do not themselves contain the opposite literal
— such as the spec's example scenario, checked here for both flag values —
the opposite substring is absent. -/
theorem retryable_round_trip :
    (∀ (op tbl q : String) (err : Option GoErr) (ts : GoTime) (r : Bool),
      containsSubstr (GoErr.databaseError op tbl q err ts r).Error
        (if r then "retryable: true" else "retryable: false"))
    ∧ (∀ b : Bool,
        containsSubstr
          (GoErr.databaseError "SELECT" "users" "SELECT * FROM users LIMIT 10"
            (some connectionTimeout) ⟨2023, 10, 5, 10, 30, 0⟩ b).Error
          (if b then "retryable: true" else "retryable: false")
        ∧ ¬ containsSubstr
            (GoErr.databaseError "SELECT" "users" "SELECT * FROM users LIMIT 10"
              (some connectionTimeout) ⟨2023, 10, 5, 10, 30, 0⟩ b).Error
            (if b then "retryable: false" else "retryable: true")) := by
  constructor
  · intro op tbl q err ts r
    cases err
    · exact containsSubstr_renderDB op tbl "<nil>" r ts
    · exact containsSubstr_renderDB op tbl _ r ts
  · intro b
    cases b <;>
      exact ⟨by set_option maxRecDepth 4000 in decide, by set_option maxRecDepth 4000 in decide⟩
